import Mathlib

/-!
Shallow embedding of the realtime-notification subsystem of
`ConversationMessagesClient`
(`sdk/communication/communication-messages-rest/src/conversationMessagesClient.ts`).

The client owns:
  - an optional signaling transport (`signalingClient`, created once by the
    `getSignalingClient` factory; `undefined` when the runtime has no realtime
    transport capability) — modelled by the boolean `hasSignalingClient`,
    with the transport's observed interactions recorded as counters and as an
    effect trace;
  - a lifecycle flag `isRealtimeNotificationsStarted`;
  - a Node.js `EventEmitter` (`this.emitter`) holding the application's
    listeners — modelled by `EventEmitter` below with Node's `events`-module
    semantics: `on` appends to the listener array of the event name,
    `removeListener` scans the array backwards and splices out the most
    recently added matching entry, `emit` invokes the listeners of a snapshot
    of the array in order without catching exceptions, and
    `removeAllListeners()` clears every event name.

Listeners are identified by reference identity, modelled as `Nat` ids; domain
event payloads are opaque values, modelled as `Nat`.
-/

/-- The closed set of public event kinds (`ChatEventId`): four domain events
and two lifecycle signals. -/
inductive ChatEventId where
  | chatMessageReceived
  | chatThreadPropertiesUpdated
  | participantsAdded
  | participantsRemoved
  | realTimeNotificationConnected
  | realTimeNotificationDisconnected
deriving DecidableEq

/-- Connection state reported by the signaling transport in a
`connectionChanged` event.  The client compares the payload against
`ConnectionState.Connected` and `ConnectionState.Disconnected`; `other tag`
stands for any further transitional value the transport might report. -/
inductive ConnectionState where
  | Connected
  | Disconnected
  | other (tag : Nat)
deriving DecidableEq

/-- Errors thrown by the client operations.  `capabilityError` is the
`Error("Realtime notifications are not supported ...")` thrown when
`signalingClient` is `undefined`; `preconditionError` is the
`Error("You must call startRealtimeNotifications before you can subscribe to events.")`;
`transportStartError` stands for a rejection of the transport's `start()`
propagated through `await`. -/
inductive ClientError where
  | capabilityError
  | preconditionError
  | transportStartError
deriving DecidableEq

/-- One listener invocation performed during an `emit`: which listener ran and
the payload it received (`none` for the zero-payload lifecycle signals). -/
structure Invocation where
  listener : Nat
  payload : Option Nat
deriving DecidableEq

/-- Externally visible effects of a lifecycle operation, in the order the
method body performs them. -/
inductive Effect where
  | setStarted (b : Bool)
  | transportStart
  | transportStop
  | installBridge
  | clearAllListeners
deriving DecidableEq

/-- The Node.js `EventEmitter` listener registry, specialised to the closed
set of event kinds the client uses: one ordered listener array per kind. -/
structure EventEmitter where
  chatMessageReceived : List Nat
  chatThreadPropertiesUpdated : List Nat
  participantsAdded : List Nat
  participantsRemoved : List Nat
  realTimeNotificationConnected : List Nat
  realTimeNotificationDisconnected : List Nat
deriving DecidableEq

/-- The listener array registered under event kind `k`. -/
def EventEmitter.reg (e : EventEmitter) : ChatEventId → List Nat
  | .chatMessageReceived => e.chatMessageReceived
  | .chatThreadPropertiesUpdated => e.chatThreadPropertiesUpdated
  | .participantsAdded => e.participantsAdded
  | .participantsRemoved => e.participantsRemoved
  | .realTimeNotificationConnected => e.realTimeNotificationConnected
  | .realTimeNotificationDisconnected => e.realTimeNotificationDisconnected

/-- Replace the listener array of event kind `k`. -/
def EventEmitter.setReg (e : EventEmitter) (k : ChatEventId) (xs : List Nat) : EventEmitter :=
  match k with
  | .chatMessageReceived => { e with chatMessageReceived := xs }
  | .chatThreadPropertiesUpdated => { e with chatThreadPropertiesUpdated := xs }
  | .participantsAdded => { e with participantsAdded := xs }
  | .participantsRemoved => { e with participantsRemoved := xs }
  | .realTimeNotificationConnected => { e with realTimeNotificationConnected := xs }
  | .realTimeNotificationDisconnected => { e with realTimeNotificationDisconnected := xs }

/-- The emitter a fresh client starts with: no listeners anywhere. -/
def emptyEmitter : EventEmitter :=
  { chatMessageReceived := []
    chatThreadPropertiesUpdated := []
    participantsAdded := []
    participantsRemoved := []
    realTimeNotificationConnected := []
    realTimeNotificationDisconnected := [] }

/-- Index of the match Node's `EventEmitter.removeListener` removes: it walks
the listener array from the END backwards (`for (let i = list.length - 1;
i >= 0; i--)`) and stops at the first identity match, i.e. the LAST
occurrence of the listener in the array; `none` when the listener is not
present. -/
def lastMatchIdx (l : Nat) : List Nat → Option Nat
  | [] => none
  | x :: xs =>
    match lastMatchIdx l xs with
    | some i => some (i + 1)
    | none => if x = l then some 0 else none

/-- The listener array after Node's `removeListener`: splice out the position
found by the backwards scan, or return the array unchanged when there is no
match. -/
def removeListenerList (xs : List Nat) (l : Nat) : List Nat :=
  match lastMatchIdx l xs with
  | none => xs
  | some i => xs.eraseIdx i

/-- `emitter.on(k, l)`: append `l` to the listener array of `k`. -/
def EventEmitter.on (e : EventEmitter) (k : ChatEventId) (l : Nat) : EventEmitter :=
  e.setReg k (e.reg k ++ [l])

/-- `emitter.removeListener(k, l)`: remove the most recently added
registration of `l` under `k` (Node semantics, see `lastMatchIdx`). -/
def EventEmitter.removeListener (e : EventEmitter) (k : ChatEventId) (l : Nat) : EventEmitter :=
  e.setReg k (removeListenerList (e.reg k) l)

/-- `emitter.removeAllListeners()`: drop every listener of every event kind. -/
def EventEmitter.removeAllListeners (_e : EventEmitter) : EventEmitter :=
  emptyEmitter

/-- Run of Node's `emit` loop over a snapshot of the listener array: each
listener is invoked in order with payload `p`; the loop body has no
`try`/`catch`, so the first listener for which `throws` holds receives its
invocation, the loop aborts, and the exception escapes `emit` (second
component `true`).  Returns the performed invocations and whether an
exception escaped. -/
def emitList (p : Option Nat) (throws : Nat → Bool) : List Nat → List Invocation × Bool
  | [] => ([], false)
  | l :: ls =>
    if throws l then ([{ listener := l, payload := p }], true)
    else
      let r := emitList p throws ls
      ({ listener := l, payload := p } :: r.1, r.2)

/-- `emitter.emit(k, p)` under listener behaviour `throws`. -/
def EventEmitter.emit (e : EventEmitter) (k : ChatEventId) (p : Option Nat)
    (throws : Nat → Bool) : List Invocation × Bool :=
  emitList p throws (e.reg k)

/-- The mutable state of one `ConversationMessagesClient` session, together
with the counters of its interactions with the signaling transport
(`transportStartCount` = number of `signalingClient.start()` invocations,
`transportStopCount` = number of `signalingClient.stop()` invocations,
`bridgeInstallCount` = number of completed `subscribeToSignalingEvents()`
runs, each of which registers the five bridge handlers on the transport). -/
structure ClientState where
  hasSignalingClient : Bool
  isRealtimeNotificationsStarted : Bool
  emitter : EventEmitter
  transportStartCount : Nat
  transportStopCount : Nat
  bridgeInstallCount : Nat
deriving DecidableEq

/-- Result of one client operation: the state afterwards, the trace of
external effects performed (in order), and the error thrown, if any.  On a
thrown error the state still reflects every mutation performed before the
throw. -/
structure StepResult where
  state : ClientState
  trace : List Effect
  error : Option ClientError
deriving DecidableEq

namespace ConversationMessagesClient

/-- `subscribeToSignalingEvents()`: registers the five bridge handlers on the
signaling transport (one `signalingClient.on` per low-level event name). -/
def subscribeToSignalingEvents (st : ClientState) : StepResult :=
  if st.hasSignalingClient = false then
    { state := st, trace := [], error := some ClientError.capabilityError }
  else
    { state := { st with bridgeInstallCount := st.bridgeInstallCount + 1 }
      trace := [Effect.installBridge]
      error := none }

/-- `startRealtimeNotifications()`.  `transportStartFails` says whether the
awaited `signalingClient.start()` promise rejects.  The method body: throw if
no transport; return if already started; set the started flag; await the
transport's start (a rejection propagates, leaving the flag set); install the
bridge subscriptions. -/
def startRealtimeNotifications (st : ClientState) (transportStartFails : Bool) : StepResult :=
  if st.hasSignalingClient = false then
    { state := st, trace := [], error := some ClientError.capabilityError }
  else if st.isRealtimeNotificationsStarted then
    { state := st, trace := [], error := none }
  else
    let st1 : ClientState := { st with isRealtimeNotificationsStarted := true }
    let st2 : ClientState := { st1 with transportStartCount := st1.transportStartCount + 1 }
    if transportStartFails then
      { state := st2
        trace := [Effect.setStarted true, Effect.transportStart]
        error := some ClientError.transportStartError }
    else
      let r := subscribeToSignalingEvents st2
      { state := r.state
        trace := [Effect.setStarted true, Effect.transportStart] ++ r.trace
        error := r.error }

/-- `stopRealtimeNotifications()`: throw if no transport; clear the started
flag; await the transport's stop; remove every listener from the emitter. -/
def stopRealtimeNotifications (st : ClientState) : StepResult :=
  if st.hasSignalingClient = false then
    { state := st, trace := [], error := some ClientError.capabilityError }
  else
    let st1 : ClientState := { st with isRealtimeNotificationsStarted := false }
    let st2 : ClientState := { st1 with transportStopCount := st1.transportStopCount + 1 }
    let st3 : ClientState := { st2 with emitter := st2.emitter.removeAllListeners }
    { state := st3
      trace := [Effect.setStarted false, Effect.transportStop, Effect.clearAllListeners]
      error := none }

/-- `on(event, listener)`: throw if no transport; throw if not started and the
event is neither `realTimeNotificationConnected` nor
`realTimeNotificationDisconnected`; otherwise register the listener. -/
def «on» (st : ClientState) (event : ChatEventId) (listener : Nat) : StepResult :=
  if st.hasSignalingClient = false then
    { state := st, trace := [], error := some ClientError.capabilityError }
  else if st.isRealtimeNotificationsStarted = false
      ∧ event ≠ ChatEventId.realTimeNotificationConnected
      ∧ event ≠ ChatEventId.realTimeNotificationDisconnected then
    { state := st, trace := [], error := some ClientError.preconditionError }
  else
    { state := { st with emitter := st.emitter.on event listener }
      trace := []
      error := none }

/-- `off(event, listener)`: throw if no transport; otherwise
`emitter.removeListener(event, listener)`. -/
def off (st : ClientState) (event : ChatEventId) (listener : Nat) : StepResult :=
  if st.hasSignalingClient = false then
    { state := st, trace := [], error := some ClientError.capabilityError }
  else
    { state := { st with emitter := st.emitter.removeListener event listener }
      trace := []
      error := none }

end ConversationMessagesClient

/-- The `connectionChanged` bridge handler installed by
`subscribeToSignalingEvents`: the list of `emitter.emit` calls it performs for
a given transport-reported payload (`if payload === Connected emit connected;
else if payload === Disconnected emit disconnected; else nothing`). -/
def bridgeConnectionChanged (payload : ConnectionState) : List ChatEventId :=
  if payload = ConnectionState.Connected then
    [ChatEventId.realTimeNotificationConnected]
  else if payload = ConnectionState.Disconnected then
    [ChatEventId.realTimeNotificationDisconnected]
  else
    []

/-- A domain-event bridge handler installed by `subscribeToSignalingEvents`:
the transport delivered payload `p` for event kind `k` and the handler
performs `this.emitter.emit(k, payload)`, passing the payload through
unchanged. -/
def bridgeDomainEvent (st : ClientState) (k : ChatEventId) (p : Nat)
    (throws : Nat → Bool) : List Invocation × Bool :=
  st.emitter.emit k (some p) throws

/-- A subscription-surface call: `on` or `off` with an event kind and a
listener. -/
inductive Op where
  | onOp (k : ChatEventId) (l : Nat)
  | offOp (k : ChatEventId) (l : Nat)

/-- Apply a sequence of `on`/`off` calls to a session state (the states the
application can drive the Event Bus through while Active). -/
def applyOps (st : ClientState) : List Op → ClientState
  | [] => st
  | Op.onOp k l :: rest => applyOps (ConversationMessagesClient.on st k l).state rest
  | Op.offOp k l :: rest => applyOps (ConversationMessagesClient.off st k l).state rest

/-- A fresh capable session: transport present, Idle, empty emitter. -/
def mkIdle : ClientState :=
  { hasSignalingClient := true
    isRealtimeNotificationsStarted := false
    emitter := emptyEmitter
    transportStartCount := 0
    transportStopCount := 0
    bridgeInstallCount := 0 }

/-- A session with no transport capability (the factory returned
`undefined`). -/
def mkNoCapability : ClientState :=
  { mkIdle with hasSignalingClient := false }

/-- A started capable session with an empty emitter. -/
def mkStarted : ClientState :=
  { mkIdle with
    isRealtimeNotificationsStarted := true
    transportStartCount := 1
    bridgeInstallCount := 1 }

/-- A started session with listeners `1` and `2` registered under
`chatMessageReceived`. -/
def mkTwoListeners : ClientState :=
  { mkStarted with emitter := { emptyEmitter with chatMessageReceived := [1, 2] } }

/-- A started session whose `chatMessageReceived` listener array is
`[5, 7, 5]` (listener `5` registered, then `7`, then `5` again). -/
def mkDupListeners : ClientState :=
  { mkStarted with emitter := { emptyEmitter with chatMessageReceived := [5, 7, 5] } }

/-- Listener behaviour where listener `1` throws and every other listener
returns normally. -/
def throwsOne : Nat → Bool := fun l => l == 1

/-- Listener behaviour where no listener throws. -/
def noThrow : Nat → Bool := fun _ => false

/-! ## Helper lemmas -/

theorem EventEmitter.reg_setReg_same (e : EventEmitter) (k : ChatEventId) (xs : List Nat) :
    (e.setReg k xs).reg k = xs := by
  cases k <;> rfl

theorem EventEmitter.reg_setReg_ne (e : EventEmitter) (k k2 : ChatEventId) (xs : List Nat)
    (h : k2 ≠ k) : (e.setReg k xs).reg k2 = e.reg k2 := by
  cases k <;> cases k2 <;> first | rfl | exact absurd rfl h

theorem EventEmitter.setReg_reg_self (e : EventEmitter) (k : ChatEventId) :
    e.setReg k (e.reg k) = e := by
  cases k <;> rfl

theorem emptyEmitter_reg (k : ChatEventId) : emptyEmitter.reg k = [] := by
  cases k <;> rfl

theorem lastMatchIdx_none_iff (l : Nat) (xs : List Nat) :
    lastMatchIdx l xs = none ↔ l ∉ xs := by
  induction xs with
  | nil => simp [lastMatchIdx]
  | cons x xs ih =>
    cases hm : lastMatchIdx l xs with
    | some i =>
      have hmem : l ∈ xs := by
        by_contra hn
        rw [← ih] at hn
        rw [hm] at hn
        exact Option.noConfusion hn
      simp [lastMatchIdx, hm, hmem]
    | none =>
      have hnm : l ∉ xs := ih.mp hm
      by_cases hx : x = l
      · subst hx
        simp [lastMatchIdx, hm]
      · simp [lastMatchIdx, hm, hx, hnm]
        exact fun h => hx h.symm

theorem lastMatchIdx_some_spec (l : Nat) (xs : List Nat) (i : Nat)
    (h : lastMatchIdx l xs = some i) :
    ∃ hi : i < xs.length, xs.get ⟨i, hi⟩ = l ∧ l ∉ xs.drop (i + 1) := by
  induction xs generalizing i with
  | nil => simp [lastMatchIdx] at h
  | cons x xs ih =>
    cases hm : lastMatchIdx l xs with
    | some j =>
      rw [lastMatchIdx, hm] at h
      obtain rfl : j + 1 = i := Option.some_injective _ h
      obtain ⟨hj, hget, hdrop⟩ := ih j hm
      exact ⟨Nat.succ_lt_succ hj, hget, hdrop⟩
    | none =>
      rw [lastMatchIdx, hm] at h
      by_cases hx : x = l
      · rw [if_pos hx] at h
        obtain rfl : 0 = i := Option.some_injective _ h
        exact ⟨Nat.succ_pos _, hx, (lastMatchIdx_none_iff l xs).mp hm⟩
      · rw [if_neg hx] at h
        exact absurd h (by simp)

theorem emitList_eq_takeWhile (p : Option Nat) (throws : Nat → Bool) (ls : List Nat) :
    emitList p throws ls =
      ((ls.takeWhile (fun l => !throws l) ++ (ls.dropWhile (fun l => !throws l)).take 1).map
          (fun l => { listener := l, payload := p }),
        ls.any throws) := by
  induction ls with
  | nil => rfl
  | cons l ls ih =>
    by_cases ht : throws l
    · simp [emitList, ht, List.takeWhile_cons, List.dropWhile_cons]
    · simp [emitList, ht, List.takeWhile_cons, List.dropWhile_cons, ih]

theorem emitList_of_noThrow (p : Option Nat) (throws : Nat → Bool) (ls : List Nat)
    (h : ∀ l ∈ ls, throws l = false) :
    emitList p throws ls = (ls.map (fun l => { listener := l, payload := p }), false) := by
  induction ls with
  | nil => rfl
  | cons l ls ih =>
    have hl : throws l = false := h l (List.mem_cons_self l ls)
    have hrest : ∀ x ∈ ls, throws x = false := fun x hx => h x (List.mem_cons_of_mem l hx)
    simp [emitList, hl, ih hrest]

/-! ## Claim theorems -/

/-- C1 (counterexample): at a fresh capable Idle session with a succeeding
transport start, `startRealtimeNotifications` does NOT perform its effects in
the order claimed (transport start, then bridge install, then set
started = true); its very first effect is setting the started flag, before
the transport's start completes. -/
theorem start_effect_order_counterexample :
    (ConversationMessagesClient.startRealtimeNotifications mkIdle false).trace ≠
        [Effect.transportStart, Effect.installBridge, Effect.setStarted true] ∧
    (ConversationMessagesClient.startRealtimeNotifications mkIdle false).trace.head? =
        some (Effect.setStarted true) := by
  decide

/-- C1 (amended): for every capable Idle session, a successful
`startRealtimeNotifications()` performs its effects in this order: it first
sets the started flag (started = true), then invokes and awaits the
transport's start, and only then installs the Event Router's bridge
subscriptions; in particular the started flag is already set before the
transport's start completes. -/
theorem start_sets_started_before_transport_start (st : ClientState)
    (hc : st.hasSignalingClient = true)
    (hi : st.isRealtimeNotificationsStarted = false) :
    (ConversationMessagesClient.startRealtimeNotifications st false).trace =
        [Effect.setStarted true, Effect.transportStart, Effect.installBridge] ∧
    (ConversationMessagesClient.startRealtimeNotifications st false).error = none ∧
    (ConversationMessagesClient.startRealtimeNotifications st false).state.isRealtimeNotificationsStarted = true := by
  simp [ConversationMessagesClient.startRealtimeNotifications,
    ConversationMessagesClient.subscribeToSignalingEvents, hc, hi]

/-- C1 (witness): the amended ordering instantiated at a fresh capable Idle
session. -/
theorem start_sets_started_before_transport_start_witness :
    (ConversationMessagesClient.startRealtimeNotifications mkIdle false).trace =
        [Effect.setStarted true, Effect.transportStart, Effect.installBridge] ∧
    (ConversationMessagesClient.startRealtimeNotifications mkIdle false).error = none ∧
    (ConversationMessagesClient.startRealtimeNotifications mkIdle false).state.isRealtimeNotificationsStarted = true :=
  start_sets_started_before_transport_start mkIdle (by decide) (by decide)

/-- C2 (counterexample): with listeners `1` and `2` registered under
`chatMessageReceived` (in that order) and listener `1` throwing, publishing a
domain event delivers nothing to the remaining listener `2`, and the
exception escapes the emit back to the transport handler. -/
theorem listener_exception_not_isolated_counterexample :
    mkTwoListeners.emitter.chatMessageReceived = [1, 2] ∧
    throwsOne 1 = true ∧
    (bridgeDomainEvent mkTwoListeners ChatEventId.chatMessageReceived 9 throwsOne).2 = true ∧
    { listener := 2, payload := some 9 } ∉
        (bridgeDomainEvent mkTwoListeners ChatEventId.chatMessageReceived 9 throwsOne).1 := by
  decide

/-- C2 (amended): delivery is NOT isolated across listeners.  For every
session, event kind, payload and listener behaviour, publishing through the
bridge invokes the registered listeners in order only up to and including the
first listener that throws: every later-registered listener is skipped, and
the exception propagates back out of the emit to the transport handler
(second component `true`) exactly when some registered listener throws. -/
theorem emit_stops_at_first_throwing_listener (st : ClientState) (k : ChatEventId) (p : Nat)
    (throws : Nat → Bool) :
    bridgeDomainEvent st k p throws =
      (((st.emitter.reg k).takeWhile (fun l => !throws l) ++
            ((st.emitter.reg k).dropWhile (fun l => !throws l)).take 1).map
          (fun l => { listener := l, payload := some p }),
        (st.emitter.reg k).any throws) :=
  emitList_eq_takeWhile (some p) throws (st.emitter.reg k)

/-- C6: the `connectionChanged` bridge handler emits exactly one
`realTimeNotificationConnected` event (and nothing else) for a `Connected`
payload, exactly one `realTimeNotificationDisconnected` event (and nothing
else) for a `Disconnected` payload, and emits nothing for every other
connection-state value. -/
theorem connectionChanged_translation :
    bridgeConnectionChanged ConnectionState.Connected =
        [ChatEventId.realTimeNotificationConnected] ∧
    bridgeConnectionChanged ConnectionState.Disconnected =
        [ChatEventId.realTimeNotificationDisconnected] ∧
    ∀ tag : Nat, bridgeConnectionChanged (ConnectionState.other tag) = [] := by
  refine ⟨rfl, rfl, fun tag => rfl⟩

/-- C8: on a session whose transport factory returned no transport,
`startRealtimeNotifications`, `stopRealtimeNotifications`, `on` and `off` all
fail with the capability error, for every event kind, listener and
transport-start outcome, leaving the session state (lifecycle flag and Event
Bus included) unchanged and performing no external effect. -/
theorem no_capability_all_operations_fail (st : ClientState)
    (hc : st.hasSignalingClient = false) (k : ChatEventId) (l : Nat) (b : Bool) :
    ConversationMessagesClient.startRealtimeNotifications st b =
        { state := st, trace := [], error := some ClientError.capabilityError } ∧
    ConversationMessagesClient.stopRealtimeNotifications st =
        { state := st, trace := [], error := some ClientError.capabilityError } ∧
    ConversationMessagesClient.on st k l =
        { state := st, trace := [], error := some ClientError.capabilityError } ∧
    ConversationMessagesClient.off st k l =
        { state := st, trace := [], error := some ClientError.capabilityError } := by
  refine ⟨?_, ?_, ?_, ?_⟩ <;>
    simp [ConversationMessagesClient.startRealtimeNotifications,
      ConversationMessagesClient.stopRealtimeNotifications,
      ConversationMessagesClient.on, ConversationMessagesClient.off, hc]

/-- C8 (witness): the four operations instantiated on a concrete
no-capability session. -/
theorem no_capability_all_operations_fail_witness :
    ConversationMessagesClient.startRealtimeNotifications mkNoCapability false =
        { state := mkNoCapability, trace := [], error := some ClientError.capabilityError } ∧
    ConversationMessagesClient.stopRealtimeNotifications mkNoCapability =
        { state := mkNoCapability, trace := [], error := some ClientError.capabilityError } ∧
    ConversationMessagesClient.on mkNoCapability ChatEventId.chatMessageReceived 7 =
        { state := mkNoCapability, trace := [], error := some ClientError.capabilityError } ∧
    ConversationMessagesClient.off mkNoCapability ChatEventId.chatMessageReceived 7 =
        { state := mkNoCapability, trace := [], error := some ClientError.capabilityError } :=
  no_capability_all_operations_fail mkNoCapability (by decide)
    ChatEventId.chatMessageReceived 7 false

/-- C3: on every capable session, subscribing to any of the four domain-event
kinds while Idle throws the precondition error and registers nothing (the
whole step result, state included, is unchanged), while subscribing to either
of the two lifecycle-signal kinds succeeds in every state — started or not —
and appends the listener to that kind's registration list. -/
theorem on_guard_domain_vs_lifecycle (st : ClientState) (l : Nat)
    (hc : st.hasSignalingClient = true) :
    (st.isRealtimeNotificationsStarted = false →
      ConversationMessagesClient.on st ChatEventId.chatMessageReceived l =
          { state := st, trace := [], error := some ClientError.preconditionError } ∧
      ConversationMessagesClient.on st ChatEventId.chatThreadPropertiesUpdated l =
          { state := st, trace := [], error := some ClientError.preconditionError } ∧
      ConversationMessagesClient.on st ChatEventId.participantsAdded l =
          { state := st, trace := [], error := some ClientError.preconditionError } ∧
      ConversationMessagesClient.on st ChatEventId.participantsRemoved l =
          { state := st, trace := [], error := some ClientError.preconditionError }) ∧
    ((ConversationMessagesClient.on st ChatEventId.realTimeNotificationConnected l).error =
        none ∧
      (ConversationMessagesClient.on st ChatEventId.realTimeNotificationConnected l).state =
        { st with emitter := { st.emitter with realTimeNotificationConnected :=
            st.emitter.realTimeNotificationConnected ++ [l] } }) ∧
    ((ConversationMessagesClient.on st ChatEventId.realTimeNotificationDisconnected l).error =
        none ∧
      (ConversationMessagesClient.on st ChatEventId.realTimeNotificationDisconnected l).state =
        { st with emitter := { st.emitter with realTimeNotificationDisconnected :=
            st.emitter.realTimeNotificationDisconnected ++ [l] } }) := by
  refine ⟨fun hi => ?_, ?_, ?_⟩ <;>
    simp [ConversationMessagesClient.on, EventEmitter.on, EventEmitter.setReg,
      EventEmitter.reg, hc]
  · simp [hi]

/-- C3 (witness): the guard instantiated on a fresh capable Idle session. -/
theorem on_guard_domain_vs_lifecycle_witness :
    ConversationMessagesClient.on mkIdle ChatEventId.chatMessageReceived 7 =
        { state := mkIdle, trace := [], error := some ClientError.preconditionError } ∧
    (ConversationMessagesClient.on mkIdle ChatEventId.realTimeNotificationConnected 7).error =
        none := by
  have h := on_guard_domain_vs_lifecycle mkIdle 7 (by decide)
  exact ⟨(h.1 (by decide)).1, h.2.1.1⟩

/-- C4: on every capable Idle session, calling `startRealtimeNotifications`
twice in succession (no intervening stop, first call's transport start
succeeding) invokes the transport's start exactly once and installs the
bridge subscriptions exactly once; the second call — whatever the transport
would have done — returns successfully, performs no effect and leaves the
state unchanged. -/
theorem start_twice_idempotent (st : ClientState)
    (hc : st.hasSignalingClient = true)
    (hi : st.isRealtimeNotificationsStarted = false) (b : Bool) :
    (ConversationMessagesClient.startRealtimeNotifications st false).error = none ∧
    (ConversationMessagesClient.startRealtimeNotifications st false).state.transportStartCount =
        st.transportStartCount + 1 ∧
    (ConversationMessagesClient.startRealtimeNotifications st false).state.bridgeInstallCount =
        st.bridgeInstallCount + 1 ∧
    ConversationMessagesClient.startRealtimeNotifications
        (ConversationMessagesClient.startRealtimeNotifications st false).state b =
      { state := (ConversationMessagesClient.startRealtimeNotifications st false).state,
        trace := [], error := none } := by
  simp [ConversationMessagesClient.startRealtimeNotifications,
    ConversationMessagesClient.subscribeToSignalingEvents, hc, hi]

/-- C4 (witness): idempotence instantiated on a fresh capable Idle session,
with the hypothetical second transport start failing (it is never invoked). -/
theorem start_twice_idempotent_witness :
    (ConversationMessagesClient.startRealtimeNotifications mkIdle false).error = none ∧
    (ConversationMessagesClient.startRealtimeNotifications mkIdle false).state.transportStartCount =
        mkIdle.transportStartCount + 1 ∧
    (ConversationMessagesClient.startRealtimeNotifications mkIdle false).state.bridgeInstallCount =
        mkIdle.bridgeInstallCount + 1 ∧
    ConversationMessagesClient.startRealtimeNotifications
        (ConversationMessagesClient.startRealtimeNotifications mkIdle false).state true =
      { state := (ConversationMessagesClient.startRealtimeNotifications mkIdle false).state,
        trace := [], error := none } :=
  start_twice_idempotent mkIdle (by decide) (by decide) true

/-- C5: on every capable session, whatever listeners were previously
registered under whatever kinds, `stopRealtimeNotifications` succeeds, leaves
the session Idle, invokes the transport's stop, and clears the Event Bus
completely: every kind's registration list is empty afterwards, so a
subsequent publish of any kind under any listener behaviour reaches zero
listeners and performs zero invocations. -/
theorem stop_clears_all_listeners (st : ClientState)
    (hc : st.hasSignalingClient = true) (k : ChatEventId) (p : Nat) (throws : Nat → Bool) :
    (ConversationMessagesClient.stopRealtimeNotifications st).error = none ∧
    (ConversationMessagesClient.stopRealtimeNotifications st).state.isRealtimeNotificationsStarted = false ∧
    (ConversationMessagesClient.stopRealtimeNotifications st).state.transportStopCount =
        st.transportStopCount + 1 ∧
    (ConversationMessagesClient.stopRealtimeNotifications st).trace =
        [Effect.setStarted false, Effect.transportStop, Effect.clearAllListeners] ∧
    (ConversationMessagesClient.stopRealtimeNotifications st).state.emitter.reg k = [] ∧
    bridgeDomainEvent (ConversationMessagesClient.stopRealtimeNotifications st).state k p throws =
        ([], false) := by
  refine ⟨?_, ?_, ?_, ?_, ?_, ?_⟩ <;>
    simp [ConversationMessagesClient.stopRealtimeNotifications,
      EventEmitter.removeAllListeners, bridgeDomainEvent, EventEmitter.emit,
      emptyEmitter_reg, emitList, hc]

/-- C5 (witness): teardown instantiated on a started session carrying
listeners under `chatMessageReceived`. -/
theorem stop_clears_all_listeners_witness :
    (ConversationMessagesClient.stopRealtimeNotifications mkTwoListeners).error = none ∧
    (ConversationMessagesClient.stopRealtimeNotifications mkTwoListeners).state.isRealtimeNotificationsStarted = false ∧
    (ConversationMessagesClient.stopRealtimeNotifications mkTwoListeners).state.transportStopCount =
        mkTwoListeners.transportStopCount + 1 ∧
    (ConversationMessagesClient.stopRealtimeNotifications mkTwoListeners).trace =
        [Effect.setStarted false, Effect.transportStop, Effect.clearAllListeners] ∧
    (ConversationMessagesClient.stopRealtimeNotifications mkTwoListeners).state.emitter.reg
        ChatEventId.chatMessageReceived = [] ∧
    bridgeDomainEvent (ConversationMessagesClient.stopRealtimeNotifications mkTwoListeners).state
        ChatEventId.chatMessageReceived 9 noThrow = ([], false) :=
  stop_clears_all_listeners mkTwoListeners (by decide) ChatEventId.chatMessageReceived 9 noThrow

/-- C7: after any sequence of `on`/`off` calls, publishing a domain event of
kind `k` with the payload `p` the transport delivered invokes exactly the
listeners registered under `k` at publish time — each once, in registration
order, within the single synchronous emit — and every one of them receives
the transport payload `p` unchanged (provided no listener throws; the
throwing case is the subject of the listener-isolation analysis). -/
theorem publish_reaches_exactly_registered (st : ClientState) (ops : List Op) (k : ChatEventId)
    (p : Nat) (throws : Nat → Bool)
    (h : ∀ l ∈ (applyOps st ops).emitter.reg k, throws l = false) :
    bridgeDomainEvent (applyOps st ops) k p throws =
      (((applyOps st ops).emitter.reg k).map (fun l => { listener := l, payload := some p }),
        false) :=
  emitList_of_noThrow (some p) throws ((applyOps st ops).emitter.reg k) h

/-- C7 (witness): publish after the call sequence `on 3, on 4, on 3, off 3` on
`chatMessageReceived` of a started session; the registered listeners at
publish time are `[3, 4]` and each receives payload `9`. -/
theorem publish_reaches_exactly_registered_witness :
    bridgeDomainEvent
        (applyOps mkStarted
          [Op.onOp ChatEventId.chatMessageReceived 3, Op.onOp ChatEventId.chatMessageReceived 4,
            Op.onOp ChatEventId.chatMessageReceived 3, Op.offOp ChatEventId.chatMessageReceived 3])
        ChatEventId.chatMessageReceived 9 noThrow =
      ((EventEmitter.reg
          (applyOps mkStarted
            [Op.onOp ChatEventId.chatMessageReceived 3, Op.onOp ChatEventId.chatMessageReceived 4,
              Op.onOp ChatEventId.chatMessageReceived 3,
              Op.offOp ChatEventId.chatMessageReceived 3]).emitter
          ChatEventId.chatMessageReceived).map
        (fun l => { listener := l, payload := some 9 }), false) :=
  publish_reaches_exactly_registered mkStarted
    [Op.onOp ChatEventId.chatMessageReceived 3, Op.onOp ChatEventId.chatMessageReceived 4,
      Op.onOp ChatEventId.chatMessageReceived 3, Op.offOp ChatEventId.chatMessageReceived 3]
    ChatEventId.chatMessageReceived 9 noThrow (by decide)

/-- C9 (counterexample): with the listener array `[5, 7, 5]` under
`chatMessageReceived`, `off(chatMessageReceived, 5)` leaves `[5, 7]` — it
removed the LAST registration of listener `5`, not the first one, whose
removal would have left `[7, 5]`. -/
theorem off_removes_first_counterexample :
    mkDupListeners.emitter.chatMessageReceived = [5, 7, 5] ∧
    (ConversationMessagesClient.off mkDupListeners ChatEventId.chatMessageReceived 5).state.emitter.chatMessageReceived = [5, 7] ∧
    (ConversationMessagesClient.off mkDupListeners ChatEventId.chatMessageReceived 5).state.emitter.chatMessageReceived ≠ [7, 5] := by
  decide

/-- C9 (amended): on every capable session, `off(k, l)` succeeds without
error and removes the MOST RECENTLY ADDED registration under `k` matching `l`
by identity — the registration at the last index holding `l`, all other
registrations (other kinds included) staying in place in their original
order; when `l` is not registered under `k` the call is a no-op leaving the
whole state unchanged. -/
theorem off_removes_most_recent_registration (st : ClientState) (k : ChatEventId) (l : Nat)
    (hc : st.hasSignalingClient = true) :
    (ConversationMessagesClient.off st k l).error = none ∧
    (ConversationMessagesClient.off st k l).trace = [] ∧
    (∀ k2, k2 ≠ k →
      (ConversationMessagesClient.off st k l).state.emitter.reg k2 = st.emitter.reg k2) ∧
    (l ∉ st.emitter.reg k → (ConversationMessagesClient.off st k l).state = st) ∧
    (l ∈ st.emitter.reg k →
      ∃ i, ∃ hi : i < (st.emitter.reg k).length,
        (st.emitter.reg k).get ⟨i, hi⟩ = l ∧
        l ∉ (st.emitter.reg k).drop (i + 1) ∧
        (ConversationMessagesClient.off st k l).state.emitter.reg k =
          (st.emitter.reg k).eraseIdx i) := by
  have hoff : ConversationMessagesClient.off st k l =
      { state := { st with emitter := st.emitter.removeListener k l },
        trace := [], error := none } := by
    simp [ConversationMessagesClient.off, hc]
  refine ⟨by rw [hoff], by rw [hoff], ?_, ?_, ?_⟩
  · intro k2 hk2
    rw [hoff]
    exact EventEmitter.reg_setReg_ne st.emitter k k2 _ hk2
  · intro hnm
    have hnone : lastMatchIdx l (st.emitter.reg k) = none :=
      (lastMatchIdx_none_iff l (st.emitter.reg k)).mpr hnm
    have hrl : st.emitter.removeListener k l = st.emitter := by
      rw [EventEmitter.removeListener, removeListenerList, hnone]
      exact EventEmitter.setReg_reg_self st.emitter k
    rw [hoff, hrl]
  · intro hm
    obtain ⟨i, hsome⟩ : ∃ i, lastMatchIdx l (st.emitter.reg k) = some i := by
      cases h2 : lastMatchIdx l (st.emitter.reg k) with
      | none => exact absurd hm ((lastMatchIdx_none_iff l (st.emitter.reg k)).mp h2)
      | some i => exact ⟨i, rfl⟩
    obtain ⟨hi, hget, hdrop⟩ := lastMatchIdx_some_spec l (st.emitter.reg k) i hsome
    refine ⟨i, hi, hget, hdrop, ?_⟩
    rw [hoff]
    show (st.emitter.removeListener k l).reg k = _
    rw [EventEmitter.removeListener, removeListenerList, hsome]
    exact EventEmitter.reg_setReg_same st.emitter k _

/-- C9 (witness): `off(chatMessageReceived, 5)` on the `[5, 7, 5]` session
succeeds and leaves the registrations of the other kinds untouched. -/
theorem off_removes_most_recent_registration_witness :
    (ConversationMessagesClient.off mkDupListeners ChatEventId.chatMessageReceived 5).error =
        none ∧
    (ConversationMessagesClient.off mkDupListeners ChatEventId.chatMessageReceived 5).state.emitter.reg
        ChatEventId.participantsAdded =
      mkDupListeners.emitter.reg ChatEventId.participantsAdded := by
  have h := off_removes_most_recent_registration mkDupListeners
    ChatEventId.chatMessageReceived 5 (by decide)
  exact ⟨h.1, h.2.2.1 ChatEventId.participantsAdded (by decide)⟩

/-- C10: on every capable Idle session, when the transport's start rejects
during `startRealtimeNotifications()`, the rejection propagates to the
caller, yet the session is left marked as started with the bridge
subscriptions never installed; every subsequent `startRealtimeNotifications`
call (whatever the transport would do) is an immediate successful no-op that
neither retries the transport start nor installs bridging, while subscribing
to a domain event via `on` nevertheless succeeds. -/
theorem start_failure_marks_started (st : ClientState)
    (hc : st.hasSignalingClient = true)
    (hi : st.isRealtimeNotificationsStarted = false) (l : Nat) (b : Bool) :
    (ConversationMessagesClient.startRealtimeNotifications st true).error =
        some ClientError.transportStartError ∧
    (ConversationMessagesClient.startRealtimeNotifications st true).state.isRealtimeNotificationsStarted = true ∧
    (ConversationMessagesClient.startRealtimeNotifications st true).state.bridgeInstallCount =
        st.bridgeInstallCount ∧
    (ConversationMessagesClient.startRealtimeNotifications st true).state.transportStartCount =
        st.transportStartCount + 1 ∧
    ConversationMessagesClient.startRealtimeNotifications
        (ConversationMessagesClient.startRealtimeNotifications st true).state b =
      { state := (ConversationMessagesClient.startRealtimeNotifications st true).state,
        trace := [], error := none } ∧
    (ConversationMessagesClient.on
        (ConversationMessagesClient.startRealtimeNotifications st true).state
        ChatEventId.chatMessageReceived l).error = none := by
  simp [ConversationMessagesClient.startRealtimeNotifications,
    ConversationMessagesClient.on, hc, hi]

/-- C10 (witness): the failed-start aftermath instantiated on a fresh capable
Idle session. -/
theorem start_failure_marks_started_witness :
    (ConversationMessagesClient.startRealtimeNotifications mkIdle true).error =
        some ClientError.transportStartError ∧
    (ConversationMessagesClient.startRealtimeNotifications mkIdle true).state.isRealtimeNotificationsStarted = true ∧
    (ConversationMessagesClient.startRealtimeNotifications mkIdle true).state.bridgeInstallCount =
        mkIdle.bridgeInstallCount ∧
    (ConversationMessagesClient.startRealtimeNotifications mkIdle true).state.transportStartCount =
        mkIdle.transportStartCount + 1 ∧
    ConversationMessagesClient.startRealtimeNotifications
        (ConversationMessagesClient.startRealtimeNotifications mkIdle true).state false =
      { state := (ConversationMessagesClient.startRealtimeNotifications mkIdle true).state,
        trace := [], error := none } ∧
    (ConversationMessagesClient.on
        (ConversationMessagesClient.startRealtimeNotifications mkIdle true).state
        ChatEventId.chatMessageReceived 3).error = none :=
  start_failure_marks_started mkIdle (by decide) (by decide) 3 false
